import Mathlib

/-!
Verification of the hh.ru vacancy collector (api_manager.py, vacancy_manager.py,
query_manager.py, db_manager.py, main.py) against its natural-language
specification.  The Python code is shallowly embedded: loosely-typed JSON
payloads become the inductive type PyVal, Python exceptions become Except PyErr,
the HTTP layer becomes an outcome oracle, and the PostgreSQL tables become
explicit lists of rows with an outcome oracle for connection/query failures.
-/

/- ===================== Python value and error model ===================== -/

/-- Python runtime values as they occur in decoded JSON payloads: None,
integers, strings, booleans, dictionaries (association lists with unique keys,
as produced by a JSON decoder) and lists. -/
inductive PyVal where
  | none
  | int (n : Int)
  | str (s : String)
  | bool (b : Bool)
  | dict (fields : List (String × PyVal))
  | list (elems : List PyVal)

/-- Python exception classes raised by the normalizer.  KeyError is never
raised because the source only uses dict.get; AttributeError arises from
calling .get on a non-dict value; TypeError and ValueError arise from int(). -/
inductive PyErr where
  | typeError
  | valueError
  | attributeError
deriving DecidableEq, Repr

/-- Whether a Python value is a string. -/
def PyVal.isStr : PyVal → Bool
  | .str _ => true
  | _ => false

/-- Whether a Python value is None. -/
def PyVal.isNone : PyVal → Bool
  | .none => true
  | _ => false

/-- Whether a Python value is a dict. -/
def PyVal.isDict : PyVal → Bool
  | .dict _ => true
  | _ => false

/-- Python d.get(key, default) on a dict represented as an association list
(JSON objects have unique keys, so first match is the binding). -/
def dictLookup (fields : List (String × PyVal)) (key : String) (dflt : PyVal) : PyVal :=
  match fields.find? (fun kv => kv.1 == key) with
  | some kv => kv.2
  | Option.none => dflt

/-- Python v.get(key, default) on an arbitrary value: succeeds on a dict,
raises AttributeError on anything else (None, int, str, bool, list). -/
def attrGet (v : PyVal) (key : String) (dflt : PyVal) : Except PyErr PyVal :=
  match v with
  | .dict fields => .ok (dictLookup fields key dflt)
  | _ => .error .attributeError

/-- Decimal digit run to a natural number; fails on a non-digit and on the
empty run. -/
def digitsToNatAux : List Char → Nat → Option Nat
  | [], acc => some acc
  | c :: cs, acc =>
      if ('0' : Char) ≤ c ∧ c ≤ ('9' : Char) then
        digitsToNatAux cs (acc * 10 + (c.toNat - ('0' : Char).toNat))
      else Option.none

/-- Nonempty decimal digit run to a natural number. -/
def digitsToNat : List Char → Option Nat
  | [] => Option.none
  | cs => digitsToNatAux cs 0

/-- Integer-literal parse of a string: optional sign followed by a nonempty
digit run.  This models the strings Python int() accepts (its additional
tolerance for surrounding whitespace and underscores is not modelled). -/
def strToInt (s : String) : Option Int :=
  match s.data with
  | [] => Option.none
  | c :: cs =>
      if c = '-' then (digitsToNat cs).map (fun n => -(n : Int))
      else if c = '+' then (digitsToNat cs).map (fun n => (n : Int))
      else (digitsToNat (c :: cs)).map (fun n => (n : Int))

/-- Python int(v): identity on ints, 0/1 on bools, parses integer strings,
raises ValueError on a non-numeric string and TypeError on None, dicts and
lists. -/
def pyIntOf : PyVal → Except PyErr Int
  | .int n => .ok n
  | .bool b => .ok (if b then 1 else 0)
  | .str s =>
      match strToInt s with
      | some n => .ok n
      | Option.none => .error .valueError
  | _ => .error .typeError

/-- Raw vacancy payload: the dict passed to Vacancy.parse_from_api. -/
abbrev RawVacancy := List (String × PyVal)

/- ===================== Record normalizer (vacancy_manager.py) ===================== -/

/-- Result of Vacancy.parse_from_api: vacancy_id and company_id have been
through int(), every other attribute holds whatever Python value the payload
supplied (possibly None). -/
structure ParsedVacancy where
  vacancy_id : Int
  company_id : Int
  name : PyVal
  salary_from : PyVal
  salary_to : PyVal
  currency : PyVal
  area : PyVal
  experience : PyVal
  employment_type : PyVal
  description : PyVal
  url : PyVal
  published_at : PyVal

/-- Salary block of parse_from_api: salary stays all-None when the payload
value is None (the `if salary is not None` guard); otherwise the three .get
calls run, raising AttributeError when salary is not a dict. -/
def salaryFields (salary : PyVal) : Except PyErr (PyVal × PyVal × PyVal) :=
  match salary with
  | .none => .ok (PyVal.none, PyVal.none, PyVal.none)
  | s => do
      let f ← attrGet s "from" PyVal.none
      let t ← attrGet s "to" PyVal.none
      let c ← attrGet s "currency" PyVal.none
      pure (f, t, c)

/-- Vacancy.parse_from_api (vacancy_manager.py lines 60-105), statement by
statement in source order: the nested .get calls for employer, salary, area,
experience and employment run first, the two int() conversions run last
(inside the constructor call). -/
def parse_from_api (d : RawVacancy) : Except PyErr ParsedVacancy := do
  let vidRaw := dictLookup d "id" PyVal.none
  let cidRaw ← attrGet (dictLookup d "employer" (.dict [])) "id" PyVal.none
  let nameVal := dictLookup d "name" PyVal.none
  let sfc ← salaryFields (dictLookup d "salary" PyVal.none)
  let areaVal ← attrGet (dictLookup d "area" (.dict [])) "name" PyVal.none
  let expVal ← attrGet (dictLookup d "experience" (.dict [])) "name" PyVal.none
  let emplVal ← attrGet (dictLookup d "employment" (.dict [])) "name" PyVal.none
  let descVal := dictLookup d "description" (.str "")
  let urlVal := dictLookup d "alternate_url" PyVal.none
  let pubVal := dictLookup d "published_at" PyVal.none
  let vid ← pyIntOf vidRaw
  let cid ← pyIntOf cidRaw
  pure { vacancy_id := vid, company_id := cid, name := nameVal,
         salary_from := sfc.1, salary_to := sfc.2.1, currency := sfc.2.2,
         area := areaVal, experience := expVal, employment_type := emplVal,
         description := descVal, url := urlVal, published_at := pubVal }

/-- VacancyManager.extract_vacancies (vacancy_manager.py lines 118-138): the
for loop appends each successful parse; the except clause catches exactly
KeyError, ValueError and TypeError (KeyError cannot arise here) and skips the
item; any other exception - in particular AttributeError - propagates out of
the whole call. -/
def extract_vacancies : List RawVacancy → Except PyErr (List ParsedVacancy)
  | [] => .ok []
  | d :: ds =>
      match parse_from_api d with
      | .ok v =>
          match extract_vacancies ds with
          | .ok vs => .ok (v :: vs)
          | .error e => .error e
      | .error .typeError => extract_vacancies ds
      | .error .valueError => extract_vacancies ds
      | .error .attributeError => .error .attributeError

/- ===================== Typed vacancy records and in-memory filters ===================== -/

/-- Vacancy record at the declared types of the Vacancy constructor
(vacancy_manager.py lines 15-58): required integer ids and name, all other
fields optional.  Also serves as a row of the vacancies table, whose columns
have exactly these types (db_manager.py create_tables). -/
structure Vacancy where
  vacancy_id : Int
  company_id : Int
  name : String
  salary_from : Option Int
  salary_to : Option Int
  currency : Option String
  area : Option String
  experience : Option String
  employment_type : Option String
  description : Option String
  url : Option String
  published_at : Option String
deriving DecidableEq, Repr

/-- Boolean substring test on char lists, modelling the Python `in` operator
on strings. -/
def hasInfixSeq (needle : List Char) : List Char → Bool
  | [] => needle.isEmpty
  | c :: rest => needle.isPrefixOf (c :: rest) || hasInfixSeq needle rest

/-- Python `needle in hay` on strings. -/
def strIncludes (hay needle : String) : Bool := hasInfixSeq needle.data hay.data

/-- VacancyManager.filter_by_keyword (vacancy_manager.py lines 140-153):
lowercases the keyword once and keeps the vacancies whose lowercased name
contains it. -/
def filter_by_keyword (vacancies : List Vacancy) (keyword : String) : List Vacancy :=
  let keywordLower := keyword.toLower
  vacancies.filter (fun v => strIncludes v.name.toLower keywordLower)

/-- First skip test of filter_by_salary_range: the requested floor is given
and the record's upper bound is None or below the floor. -/
def belowFloor (lo bound : Option Int) : Bool :=
  match lo, bound with
  | Option.none, _ => false
  | some _, Option.none => true
  | some l, some t => t < l

/-- Second skip test of filter_by_salary_range: the requested ceiling is given
and the record's lower bound is None or above the ceiling. -/
def aboveCeiling (hi bound : Option Int) : Bool :=
  match hi, bound with
  | Option.none, _ => false
  | some _, Option.none => true
  | some h, some f => h < f

/-- VacancyManager.filter_by_salary_range (vacancy_manager.py lines 155-189):
the loop skips records with neither bound, then applies the floor test against
the record's upper bound and the ceiling test against the record's lower
bound, appending survivors in order. -/
def filter_by_salary_range : List Vacancy → Option Int → Option Int → List Vacancy
  | [], _, _ => []
  | v :: rest, lo, hi =>
      if v.salary_from = Option.none ∧ v.salary_to = Option.none then
        filter_by_salary_range rest lo hi
      else if belowFloor lo v.salary_to then
        filter_by_salary_range rest lo hi
      else if aboveCeiling hi v.salary_from then
        filter_by_salary_range rest lo hi
      else
        v :: filter_by_salary_range rest lo hi

/- ===================== API client (api_manager.py) ===================== -/

/-- Outcome of one requests.get call: a response with a status code and a
decoded JSON body, a network/connection error, or a timeout.  All three error
classes are subclasses of requests.exceptions.RequestException, the class the
source catches. -/
inductive HttpOutcome where
  | resp (status : Nat) (body : PyVal)
  | netError
  | timeout

/-- response.raise_for_status() raises HTTPError exactly for status codes of
400 and above. -/
def statusOk (status : Nat) : Bool := status < 400

/-- HeadHunterAPI.get_employer_vacancies (api_manager.py lines 20-46): returns
the decoded body on a sub-400 response and None on any RequestException
(network error, non-success status via raise_for_status, timeout). -/
def get_employer_vacancies (outcome : HttpOutcome) : Option PyVal :=
  match outcome with
  | .resp status body => if statusOk status then some body else Option.none
  | .netError => Option.none
  | .timeout => Option.none

/-- HeadHunterAPI.get_employer_info: identical request/failure structure. -/
def get_employer_info (outcome : HttpOutcome) : Option PyVal :=
  match outcome with
  | .resp status body => if statusOk status then some body else Option.none
  | .netError => Option.none
  | .timeout => Option.none

/-- HeadHunterAPI.get_vacancy_details: identical request/failure structure. -/
def get_vacancy_details (outcome : HttpOutcome) : Option PyVal :=
  match outcome with
  | .resp status body => if statusOk status then some body else Option.none
  | .netError => Option.none
  | .timeout => Option.none

/-- One page as seen by the pagination loop: items models
data.get("items", []) and pages models data.get("pages", 0). -/
structure PageData (α : Type) where
  items : List α
  pages : Nat

/-- Loop body of get_all_vacancies_for_employer.  The oracle maps a page index
to the result of get_employer_vacancies for that page (none = failed request).
Returns the list of page indices actually requested and the accumulated items.
The break test `page >= pages - 1` uses truncated Nat subtraction, which
agrees with Python integer arithmetic here because page is never negative.
Fuel bounds the iteration count of the source's `while True`; every theorem
supplies enough fuel for the loop to reach its break. -/
def fetchAllPages {α : Type} (oracle : Nat → Option (PageData α)) :
    Nat → Nat → List Nat × List α
  | 0, _ => ([], [])
  | fuel + 1, page =>
      match oracle page with
      | Option.none => ([page], [])
      | some d =>
          if d.pages - 1 ≤ page then ([page], d.items)
          else
            let rest := fetchAllPages oracle fuel (page + 1)
            (page :: rest.1, d.items ++ rest.2)

/-- HeadHunterAPI.get_all_vacancies_for_employer (api_manager.py lines 90-123):
starts at page 0, accumulates each page's items, stops on a failed request or
when the requested index reaches the reported last-page index. -/
def get_all_vacancies_for_employer {α : Type} (oracle : Nat → Option (PageData α))
    (fuel : Nat) : List Nat × List α :=
  fetchAllPages oracle fuel 0

/-- Mocked API whose every page reports the same fixed page count. -/
def fixedPageOracle {α : Type} (itemsOf : Nat → List α) (pages : Nat) :
    Nat → Option (PageData α) :=
  fun k => some ⟨itemsOf k, pages⟩

/-- Mocked API that fails (returns None) exactly at page failPage and reports
a fixed page count elsewhere. -/
def failingPageOracle {α : Type} (itemsOf : Nat → List α) (pages failPage : Nat) :
    Nat → Option (PageData α) :=
  fun k => if k = failPage then Option.none else some ⟨itemsOf k, pages⟩

/- ===================== Persistence and query layer (query_manager.py) ===================== -/

/-- Row of the companies table (db_manager.py create_tables): company_id is
UNIQUE NOT NULL, name NOT NULL, site_url nullable, open_vacancies integer. -/
structure CompanyRow where
  company_id : Int
  name : String
  site_url : Option String
  open_vacancies : Int
deriving DecidableEq, Repr

/-- Contents of the two tables. -/
structure DBState where
  companies : List CompanyRow
  vacancies : List Vacancy
deriving DecidableEq, Repr

/-- Outcome of one open-connection/execute/commit/close cycle: everything
succeeded, the connection could not be opened, or an execute/commit raised
psycopg2.Error. -/
inductive DbOutcome where
  | ok
  | connFail
  | queryFail

/-- Effect of INSERT ... ON CONFLICT (company_id) DO UPDATE on the companies
table: overwrite the matching row when one exists, append otherwise. -/
def upsertCompany (rows : List CompanyRow) (c : CompanyRow) : List CompanyRow :=
  if rows.any (fun r => r.company_id == c.company_id) then
    rows.map (fun r => if r.company_id == c.company_id then c else r)
  else rows ++ [c]

/-- DBManager.insert_company (query_manager.py lines 22-65): False when no
connection or the statement fails (rollback leaves the state unchanged), True
after a committed upsert. -/
def insert_company (st : DBState) (o : DbOutcome) (c : CompanyRow) : DBState × Bool :=
  match o with
  | .ok => ({ st with companies := upsertCompany st.companies c }, true)
  | .connFail => (st, false)
  | .queryFail => (st, false)

/-- DBManager.insert_vacancy (query_manager.py lines 67-142): INSERT ... ON
CONFLICT (vacancy_id) DO NOTHING.  A conflicting vacancy_id makes the
statement a committed no-op, which still returns True.  A fresh row must
satisfy the foreign key on company_id (db_manager.py create_tables); a
violation raises psycopg2.Error, is caught, rolled back and reported False. -/
def insert_vacancy (st : DBState) (o : DbOutcome) (v : Vacancy) : DBState × Bool :=
  match o with
  | .connFail => (st, false)
  | .queryFail => (st, false)
  | .ok =>
      if st.vacancies.any (fun r => r.vacancy_id == v.vacancy_id) then
        (st, true)
      else if st.companies.any (fun c => c.company_id == v.company_id) then
        ({ st with vacancies := st.vacancies ++ [v] }, true)
      else
        (st, false)

/-- COUNT(v.id) for one company row of the LEFT JOIN ... GROUP BY. -/
def vacancyCountFor (st : DBState) (c : CompanyRow) : Nat :=
  (st.vacancies.filter (fun v => v.company_id == c.company_id)).length

/-- DBManager.get_companies_and_vacancies_count (query_manager.py lines
144-176): one row per company (GROUP BY the primary key) with its vacancy
count, ORDER BY count descending; empty list on any failure. -/
def get_companies_and_vacancies_count (st : DBState) (o : DbOutcome) :
    List (String × Nat) :=
  match o with
  | .ok =>
      (st.companies.map (fun c => (c.name, vacancyCountFor st c))).mergeSort
        (fun a b => b.2 ≤ a.2)
  | .connFail => []
  | .queryFail => []

/-- Row shape of the three vacancy listings: company name, vacancy name,
salary bounds, currency, url. -/
abbrev ListingRow := String × String × Option Int × Option Int × Option String × Option String

/-- JOIN companies ON v.company_id = c.company_id for one vacancy row
(company_id is UNIQUE, so at most one company matches). -/
def joinRow (st : DBState) (v : Vacancy) : Option ListingRow :=
  (st.companies.find? (fun c => c.company_id == v.company_id)).map
    (fun c => (c.name, v.name, v.salary_from, v.salary_to, v.currency, v.url))

/-- ORDER BY company name, vacancy name. -/
def byNames (a b : ListingRow) : Bool := a.1 < b.1 || (a.1 == b.1 && a.2.1 ≤ b.2.1)

/-- DBManager.get_all_vacancies (query_manager.py lines 178-214): inner join
ordered by company name then vacancy name; empty list on any failure. -/
def get_all_vacancies (st : DBState) (o : DbOutcome) : List ListingRow :=
  match o with
  | .ok => ((st.vacancies.filterMap (joinRow st)).mergeSort byNames)
  | .connFail => []
  | .queryFail => []

/-- Whether a vacancy row enters the salary aggregate: WHERE salary_from IS
NOT NULL OR salary_to IS NOT NULL. -/
def hasSalary (v : Vacancy) : Bool := v.salary_from.isSome || v.salary_to.isSome

/-- Midpoint formula of the SQL: (COALESCE(salary_from, 0) +
COALESCE(salary_to, 0)) / 2 on integer columns, so PostgreSQL integer
division, which truncates toward zero (Int.tdiv). -/
def midpointSalary (v : Vacancy) : Int :=
  Int.tdiv (v.salary_from.getD 0 + v.salary_to.getD 0) 2

/-- SELECT AVG(midpointSalary) over the qualifying rows: SQL AVG of integers is the
exact rational mean, and is NULL over the empty set. -/
def avgMidpoint (rows : List Vacancy) : Option ℚ :=
  let qual := rows.filter hasSalary
  if qual.isEmpty then Option.none
  else some (((qual.map (fun v => (midpointSalary v : ℚ))).sum) / (qual.length : ℚ))

/-- DBManager.get_avg_salary (query_manager.py lines 216-247): the AVG query
above; None when the connection or query fails, and None when AVG returns NULL
(fetchone yields a NULL cell, filtered by the `is not None` test). -/
def get_avg_salary (st : DBState) (o : DbOutcome) : Option ℚ :=
  match o with
  | .ok => avgMidpoint st.vacancies
  | .connFail => Option.none
  | .queryFail => Option.none

/-- DBManager.get_vacancies_with_higher_salary (query_manager.py lines
249-287): rows with a salary bound whose midpointSalary strictly exceeds the global
average, ordered by midpointSalary descending; a NULL average (no qualifying rows)
satisfies no comparison, giving the empty list; empty list on any failure. -/
def get_vacancies_with_higher_salary (st : DBState) (o : DbOutcome) : List ListingRow :=
  match o with
  | .ok =>
      match avgMidpoint st.vacancies with
      | Option.none => []
      | some a =>
          ((st.vacancies.filter (fun v => hasSalary v && a < (midpointSalary v : ℚ))).mergeSort
              (fun u v => midpointSalary v ≤ midpointSalary u)).filterMap (joinRow st)
  | .connFail => []
  | .queryFail => []

/-- DBManager.get_vacancies_with_keyword (query_manager.py lines 289-326):
v.name ILIKE the keyword wrapped in percent wildcards, i.e. case-insensitive
substring match (keywords themselves are taken wildcard-free), ordered by
company name then vacancy name; empty list on any failure. -/
def get_vacancies_with_keyword (st : DBState) (o : DbOutcome) (keyword : String) :
    List ListingRow :=
  match o with
  | .ok =>
      (((st.vacancies.filter (fun v => strIncludes v.name.toLower keyword.toLower)).filterMap
          (joinRow st)).mergeSort byNames)
  | .connFail => []
  | .queryFail => []

/- ===================== Orchestrator (main.py) ===================== -/

/-- One iteration of the vacancy-insertion loop of
load_companies_and_vacancies (main.py lines 74-93) under a healthy database:
added_count increments whenever insert_vacancy returns True. -/
def addStep (acc : DBState × Nat) (v : Vacancy) : DBState × Nat :=
  let step := insert_vacancy acc.1 .ok v
  (step.1, if step.2 then acc.2 + 1 else acc.2)

/-- Vacancy-insertion loop of load_companies_and_vacancies: runs addStep over
the normalized batch starting from added_count = 0. -/
def countAddedVacancies (st : DBState) (vs : List Vacancy) : DBState × Nat :=
  vs.foldl addStep (st, 0)

/- ===================== Claim theorems ===================== -/

/-- C7: every failure in the API client and the persistence/query layer is
absorbed inside the operation and surfaced as an absence value: each of the
three single-request API operations yields the body exactly on a sub-400
response and None on a network error, a status of 400 or above, or a timeout;
each insert yields False and leaves the state unchanged on a failed connection
or statement; each list-returning query yields the empty list and
get_avg_salary yields None.  All embedded operations are total functions, so
no exception reaches the caller. -/
theorem C7_failure_absence :
    (∀ s : Nat, statusOk s = true ↔ s < 400) ∧
    (∀ (s : Nat) (b : PyVal),
      get_employer_vacancies (.resp s b) = if statusOk s then some b else Option.none) ∧
    get_employer_vacancies .netError = Option.none ∧
    get_employer_vacancies .timeout = Option.none ∧
    (∀ (s : Nat) (b : PyVal),
      get_employer_info (.resp s b) = if statusOk s then some b else Option.none) ∧
    get_employer_info .netError = Option.none ∧
    get_employer_info .timeout = Option.none ∧
    (∀ (s : Nat) (b : PyVal),
      get_vacancy_details (.resp s b) = if statusOk s then some b else Option.none) ∧
    get_vacancy_details .netError = Option.none ∧
    get_vacancy_details .timeout = Option.none ∧
    (∀ (st : DBState) (c : CompanyRow),
      insert_company st .connFail c = (st, false) ∧
      insert_company st .queryFail c = (st, false)) ∧
    (∀ (st : DBState) (v : Vacancy),
      insert_vacancy st .connFail v = (st, false) ∧
      insert_vacancy st .queryFail v = (st, false)) ∧
    (∀ st : DBState,
      get_companies_and_vacancies_count st .connFail = [] ∧
      get_companies_and_vacancies_count st .queryFail = []) ∧
    (∀ st : DBState,
      get_all_vacancies st .connFail = [] ∧ get_all_vacancies st .queryFail = []) ∧
    (∀ st : DBState,
      get_avg_salary st .connFail = Option.none ∧
      get_avg_salary st .queryFail = Option.none) ∧
    (∀ st : DBState,
      get_vacancies_with_higher_salary st .connFail = [] ∧
      get_vacancies_with_higher_salary st .queryFail = []) ∧
    (∀ (st : DBState) (kw : String),
      get_vacancies_with_keyword st .connFail kw = [] ∧
      get_vacancies_with_keyword st .queryFail kw = []) :=
  ⟨fun s => by simp [statusOk],
   fun _ _ => rfl, rfl, rfl, fun _ _ => rfl, rfl, rfl, fun _ _ => rfl, rfl, rfl,
   fun _ _ => ⟨rfl, rfl⟩, fun _ _ => ⟨rfl, rfl⟩, fun _ => ⟨rfl, rfl⟩,
   fun _ => ⟨rfl, rfl⟩, fun _ => ⟨rfl, rfl⟩, fun _ => ⟨rfl, rfl⟩,
   fun _ _ => ⟨rfl, rfl⟩⟩

/-- C9: when no vacancy row has either salary bound present (in particular on
an empty vacancies table), get_avg_salary returns None, not 0: SQL AVG over
the empty qualifying set is NULL and the source maps a NULL cell to None. -/
theorem C9_avg_none_without_data :
    ∀ st : DBState,
      (∀ v ∈ st.vacancies, v.salary_from = Option.none ∧ v.salary_to = Option.none) →
      get_avg_salary st .ok = Option.none := by
  intro st h
  have hfil : st.vacancies.filter hasSalary = [] := by
    rw [List.filter_eq_nil_iff]
    intro v hv
    have := h v hv
    simp [hasSalary, this.1, this.2]
  simp [get_avg_salary, avgMidpoint, hfil]

/-- State with a single vacancy row carrying no salary bound at all. -/
def c9State : DBState :=
  ⟨[⟨2, "Acme", Option.none, 0⟩],
   [⟨1, 2, "Intern", Option.none, Option.none, Option.none, Option.none, Option.none,
     Option.none, Option.none, Option.none, Option.none⟩]⟩

/-- Witness for C9 at a concrete one-row table without salary data. -/
theorem C9_avg_none_without_data_witness : get_avg_salary c9State .ok = Option.none :=
  C9_avg_none_without_data c9State (by decide)

/-- State with a single vacancy row whose salary is from=100000, to=NULL. -/
def c2State : DBState :=
  ⟨[⟨2, "Acme", Option.none, 0⟩],
   [⟨1, 2, "Dev", some 100000, Option.none, Option.none, Option.none, Option.none,
     Option.none, Option.none, Option.none, Option.none⟩]⟩

/-- C2: get_avg_salary averages, over exactly the rows with at least one bound
present, the midpoint (COALESCE(salary_from, 0) + COALESCE(salary_to, 0)) / 2,
an absent bound contributing 0 (the division is PostgreSQL integer division on
integer columns); over the single row (100000, NULL) it yields 50000. -/
theorem C2_avg_salary :
    (∀ st : DBState, st.vacancies.filter hasSalary ≠ [] →
      get_avg_salary st .ok =
        some ((((st.vacancies.filter hasSalary).map
            (fun v => ((Int.tdiv (v.salary_from.getD 0 + v.salary_to.getD 0) 2 : Int) : ℚ))).sum) /
          ((st.vacancies.filter hasSalary).length : ℚ))) ∧
    get_avg_salary c2State .ok = some 50000 := by
  constructor
  · intro st h
    have : (st.vacancies.filter hasSalary).isEmpty = false := by
      simpa [List.isEmpty_eq_false] using h
    simp [get_avg_salary, avgMidpoint, midpointSalary, this]
  · simp [get_avg_salary, avgMidpoint, c2State, hasSalary, midpointSalary, List.filter]
    rw [show Int.tdiv 100000 2 = 50000 from rfl]
    norm_num

/-- Witness for C2 at the concrete one-row table. -/
theorem C2_avg_salary_witness :
    c2State.vacancies.filter hasSalary ≠ [] ∧
    get_avg_salary c2State .ok =
      some ((((c2State.vacancies.filter hasSalary).map
          (fun v => ((Int.tdiv (v.salary_from.getD 0 + v.salary_to.getD 0) 2 : Int) : ℚ))).sum) /
        ((c2State.vacancies.filter hasSalary).length : ℚ)) :=
  ⟨by decide, C2_avg_salary.1 c2State (by decide)⟩

/-- Inner accumulation of the orchestrator loop: when every insert reports
True, the counter just adds the number of processed vacancies. -/
theorem countAdded_go (vs : List Vacancy) :
    ∀ (st : DBState) (n : Nat),
      (∀ v ∈ vs, st.vacancies.any (fun r => r.vacancy_id == v.vacancy_id) = true) →
      vs.foldl addStep (st, n) = (st, n + vs.length) := by
  induction vs with
  | nil => intro st n _; simp
  | cons v rest ih =>
    intro st n h
    have hv := h v (by simp)
    have hstep : addStep (st, n) v = (st, n + 1) := by
      simp [addStep, insert_vacancy, hv]
    rw [List.foldl_cons, hstep, ih st (n + 1) (fun w hw => h w (by simp [hw]))]
    simp [List.length_cons]
    omega

/-- C10: insert_vacancy reports True both on a fresh insert and on a
vacancy_id conflict where ON CONFLICT DO NOTHING leaves the state untouched,
so True does not imply a row was written; consequently the orchestrator's
added_count counts conflict no-ops, totalling the full batch length even when
every vacancy already exists. -/
theorem C10_conflict_counts_added :
    (∀ (st : DBState) (v : Vacancy),
      st.vacancies.any (fun r => r.vacancy_id == v.vacancy_id) = true →
      insert_vacancy st .ok v = (st, true)) ∧
    (∀ (st : DBState) (v : Vacancy),
      st.vacancies.any (fun r => r.vacancy_id == v.vacancy_id) = false →
      st.companies.any (fun c => c.company_id == v.company_id) = true →
      insert_vacancy st .ok v = ({ st with vacancies := st.vacancies ++ [v] }, true)) ∧
    (∀ (st : DBState) (vs : List Vacancy),
      (∀ v ∈ vs, st.vacancies.any (fun r => r.vacancy_id == v.vacancy_id) = true) →
      countAddedVacancies st vs = (st, vs.length)) := by
  refine ⟨?_, ?_, ?_⟩
  · intro st v h; simp [insert_vacancy, h]
  · intro st v h hfk; simp [insert_vacancy, h, hfk]
  · intro st vs h
    unfold countAddedVacancies
    simpa using countAdded_go vs st 0 h

/-- Batch of two vacancies whose vacancy_id already sits in c9State. -/
def c10Batch : List Vacancy :=
  [⟨1, 2, "Other title", some 1, some 2, Option.none, Option.none, Option.none,
    Option.none, Option.none, Option.none, Option.none⟩,
   ⟨1, 2, "Third title", Option.none, Option.none, Option.none, Option.none, Option.none,
    Option.none, Option.none, Option.none, Option.none⟩]

/-- Witness for C10: re-inserting two vacancies with an already-present id
leaves the state untouched yet counts both as added. -/
theorem C10_conflict_counts_added_witness :
    insert_vacancy c9State .ok (c10Batch.get ⟨0, by decide⟩) = (c9State, true) ∧
    countAddedVacancies c9State c10Batch = (c9State, 2) :=
  ⟨C10_conflict_counts_added.1 c9State (c10Batch.get ⟨0, by decide⟩) (by decide),
   C10_conflict_counts_added.2.2 c9State c10Batch (by decide)⟩

/-- Against an oracle that always answers and reports page count p, the loop
started at page j < p with at least p - j iterations of fuel requests exactly
pages j..p-1 and concatenates their items in order. -/
theorem fetchAllPages_fixed {α : Type} (itemsOf : Nat → List α) (p : Nat) :
    ∀ (fuel j : Nat), j + 1 ≤ p → p ≤ j + fuel →
      fetchAllPages (fixedPageOracle itemsOf p) fuel j =
        (List.range' j (p - j), ((List.range' j (p - j)).map itemsOf).flatten) := by
  intro fuel
  induction fuel with
  | zero => intro j h1 h2; omega
  | succ n ih =>
    intro j h1 h2
    rw [show p - j = (p - (j + 1)) + 1 from by omega, List.range'_succ]
    by_cases hlast : p - 1 ≤ j
    · have hz : p - (j + 1) = 0 := by omega
      rw [hz]
      simp [fetchAllPages, fixedPageOracle, hlast]
    · have hrec := ih (j + 1) (by omega) (by omega)
      simp only [fetchAllPages, fixedPageOracle, if_neg hlast, hrec]
      simp

/-- Against an oracle that fails exactly at page k < p, the loop started at
page j ≤ k requests pages j..k and returns only the items of pages j..k-1. -/
theorem fetchAllPages_failing {α : Type} (itemsOf : Nat → List α) (p k : Nat) :
    ∀ (fuel j : Nat), j ≤ k → k < p → k - j < fuel →
      fetchAllPages (failingPageOracle itemsOf p k) fuel j =
        (List.range' j (k - j + 1), ((List.range' j (k - j)).map itemsOf).flatten) := by
  intro fuel
  induction fuel with
  | zero => intro j h1 h2 h3; omega
  | succ n ih =>
    intro j h1 h2 h3
    by_cases hj : j = k
    · subst hj
      simp [fetchAllPages, failingPageOracle, List.range'_succ]
    · have hlast : ¬ p - 1 ≤ j := by omega
      have hrec := ih (j + 1) (by omega) h2 (by omega)
      rw [show k - j + 1 = (k - (j + 1) + 1) + 1 from by omega, List.range'_succ,
        show k - j = (k - (j + 1)) + 1 from by omega, List.range'_succ]
      simp only [fetchAllPages, failingPageOracle, if_neg hj, if_neg hlast, hrec]
      simp [List.range'_succ]

/-- C1 (amended): against a page oracle reporting a fixed page count pages of
at least 1, get_all_vacancies_for_employer requests exactly pages 0..pages-1
and returns the concatenation of their items in page order; when the reported
count is 0 the loop still issues one request, for page 0, and returns that
page's items; when the request for page k fails it stops there and keeps
exactly the items of pages 0..k-1; it returns the empty list when the
employer has no vacancies and when the first request fails. -/
theorem C1_pagination :
    (∀ (α : Type) (itemsOf : Nat → List α) (p fuel : Nat), 1 ≤ p → p ≤ fuel →
      get_all_vacancies_for_employer (fixedPageOracle itemsOf p) fuel =
        (List.range p, ((List.range p).map itemsOf).flatten)) ∧
    (∀ (α : Type) (itemsOf : Nat → List α) (fuel : Nat),
      get_all_vacancies_for_employer (fixedPageOracle itemsOf 0) (fuel + 1) =
        ([0], itemsOf 0)) ∧
    (∀ (α : Type) (itemsOf : Nat → List α) (p k fuel : Nat), k < p → k < fuel →
      get_all_vacancies_for_employer (failingPageOracle itemsOf p k) fuel =
        (List.range (k + 1), ((List.range k).map itemsOf).flatten)) ∧
    (∀ (α : Type) (p fuel : Nat), 1 ≤ p → p ≤ fuel →
      (get_all_vacancies_for_employer (fixedPageOracle (fun _ => ([] : List α)) p) fuel).2 = []) ∧
    (∀ (α : Type) (itemsOf : Nat → List α) (p fuel : Nat),
      get_all_vacancies_for_employer (failingPageOracle itemsOf p 0) (fuel + 1) = ([0], [])) := by
  have hfix : ∀ (α : Type) (itemsOf : Nat → List α) (p fuel : Nat), 1 ≤ p → p ≤ fuel →
      get_all_vacancies_for_employer (fixedPageOracle itemsOf p) fuel =
        (List.range p, ((List.range p).map itemsOf).flatten) := by
    intro α itemsOf p fuel h1 h2
    unfold get_all_vacancies_for_employer
    rw [fetchAllPages_fixed itemsOf p fuel 0 (by omega) (by omega)]
    simp [List.range_eq_range']
  refine ⟨hfix, ?_, ?_, ?_, ?_⟩
  · intro α itemsOf fuel
    simp [get_all_vacancies_for_employer, fetchAllPages, fixedPageOracle]
  · intro α itemsOf p k fuel h1 h2
    unfold get_all_vacancies_for_employer
    rw [fetchAllPages_failing itemsOf p k fuel 0 (by omega) h1 (by omega)]
    simp [List.range_eq_range']
  · intro α p fuel h1 h2
    rw [hfix α (fun _ => []) p fuel h1 h2]
    simp
  · intro α itemsOf p fuel
    simp [get_all_vacancies_for_employer, fetchAllPages, failingPageOracle]

/-- C1 counterexample: an oracle reporting page count 0 whose page 0 carries
one item.  The claim, read at pages = 0, predicts zero page requests and the
empty result; the code issues the request for page 0 and returns its item. -/
theorem C1_pagination_cex :
    get_all_vacancies_for_employer (fixedPageOracle (fun _ => ["a"]) 0) 5 ≠ ([], []) := by
  decide

/-- Witness for C1 at pages = 3 with fuel 10: exactly the requests 0,1,2 and
the items in page order; and with page 1 failing: requests 0,1 and only page
0's items. -/
theorem C1_pagination_witness :
    get_all_vacancies_for_employer (fixedPageOracle (fun k => [k, k + 10]) 3) 10 =
      (List.range 3, ((List.range 3).map (fun k => [k, k + 10])).flatten) ∧
    get_all_vacancies_for_employer (failingPageOracle (fun k => [k, k + 10]) 3 1) 10 =
      (List.range (1 + 1), ((List.range 1).map (fun k => [k, k + 10])).flatten) :=
  ⟨C1_pagination.1 Nat (fun k => [k, k + 10]) 3 10 (by decide) (by decide),
   C1_pagination.2.2.1 Nat (fun k => [k, k + 10]) 3 1 10 (by decide) (by decide)⟩

/-- The boolean substring test agrees with the infix relation on lists. -/
theorem hasInfixSeq_iff (n : List Char) : ∀ h : List Char,
    hasInfixSeq n h = true ↔ n <:+: h := by
  intro h
  induction h with
  | nil => simp [hasInfixSeq, List.isEmpty_iff, List.infix_nil]
  | cons c rest ih =>
    simp [hasInfixSeq, ih, List.infix_cons_iff, List.isPrefixOf_iff_prefix]

/-- C8: filter_by_keyword returns a sublist of its input (subset in original
relative order) and keeps exactly the records whose lowercased name has the
lowercased keyword as an infix, i.e. contains the keyword case-insensitively.
The embedded function is pure, so it performs no I/O and cannot mutate its
input. -/
theorem C8_keyword_filter :
    ∀ (vs : List Vacancy) (kw : String),
      (filter_by_keyword vs kw).Sublist vs ∧
      (∀ v : Vacancy, v ∈ filter_by_keyword vs kw ↔
        v ∈ vs ∧ kw.toLower.data <:+: v.name.toLower.data) := by
  intro vs kw
  constructor
  · exact List.filter_sublist vs
  · intro v
    simp [filter_by_keyword, List.mem_filter, strIncludes, hasInfixSeq_iff]

/-- Keep test of the claim for C5: at least one bound present; when a floor is
requested, the upper bound is present and not below it; when a ceiling is
requested, the lower bound is present and not above it. -/
def rangeKeep (lo hi : Option Int) (v : Vacancy) : Bool :=
  (v.salary_from.isSome || v.salary_to.isSome) &&
  (match lo with
   | Option.none => true
   | some l =>
       match v.salary_to with
       | Option.none => false
       | some t => l ≤ t) &&
  (match hi with
   | Option.none => true
   | some hb =>
       match v.salary_from with
       | Option.none => false
       | some f => f ≤ hb)

/-- Record with no lower bound and upper bound 90000. -/
def c5Low : Vacancy :=
  ⟨1, 2, "A", Option.none, some 90000, Option.none, Option.none, Option.none,
   Option.none, Option.none, Option.none, Option.none⟩

/-- Record with no lower bound and upper bound 120000. -/
def c5High : Vacancy :=
  ⟨2, 2, "B", Option.none, some 120000, Option.none, Option.none, Option.none,
   Option.none, Option.none, Option.none, Option.none⟩

/-- C5: filter_by_salary_range keeps exactly the records passing rangeKeep, in
order; with floor 100000 and no ceiling it drops the record with upper bound
90000 and keeps the one with upper bound 120000. -/
theorem C5_salary_range_filter :
    (∀ (vs : List Vacancy) (lo hi : Option Int),
      filter_by_salary_range vs lo hi = vs.filter (rangeKeep lo hi)) ∧
    filter_by_salary_range [c5Low, c5High] (some 100000) Option.none = [c5High] := by
  have hmain : ∀ (lo hi : Option Int) (vs : List Vacancy),
      filter_by_salary_range vs lo hi = vs.filter (rangeKeep lo hi) := by
    intro lo hi vs
    induction vs with
    | nil => rfl
    | cons v rest ih =>
      rw [List.filter_cons]
      rcases hf : v.salary_from with _ | f <;> rcases ht : v.salary_to with _ | t <;>
        rcases lo with _ | l <;> rcases hi with _ | hb <;>
        simp [filter_by_salary_range, rangeKeep, belowFloor, aboveCeiling, hf, ht, ih] <;>
        (try split_ifs) <;> (try simp_all) <;> (try omega)
  exact ⟨fun vs lo hi => hmain lo hi vs, by rw [hmain]; decide⟩

/-- C6 (amended): extract_vacancies returns the successful parses in input
order whenever no item fails with AttributeError: an item failing with a
KeyError/ValueError/TypeError is skipped and the batch continues.  An item
whose normalization raises AttributeError (a non-dict where employer, salary,
area, experience or employment is looked up) aborts the whole batch with that
error instead. -/
theorem C6_extract_skips :
    ∀ ds : List RawVacancy,
      (∀ d ∈ ds, parse_from_api d ≠ .error .attributeError) →
      extract_vacancies ds = .ok (ds.filterMap (fun d => (parse_from_api d).toOption)) := by
  intro ds
  induction ds with
  | nil => intro _; rfl
  | cons d rest ih =>
    intro h
    have hrest := ih (fun w hw => h w (by simp [hw]))
    cases hp : parse_from_api d with
    | ok v => simp [extract_vacancies, hp, hrest, List.filterMap_cons, Except.toOption]
    | error e =>
      cases e with
      | typeError => simp [extract_vacancies, hp, hrest, List.filterMap_cons, Except.toOption]
      | valueError => simp [extract_vacancies, hp, hrest, List.filterMap_cons, Except.toOption]
      | attributeError => exact absurd hp (h d (by simp))

/-- Payload that parses successfully. -/
def c6Good : RawVacancy :=
  [("id", PyVal.int 1), ("employer", PyVal.dict [("id", PyVal.int 2)]),
   ("name", PyVal.str "Dev")]

/-- Payload whose id is a non-numeric string: int() raises ValueError, which
the batch loop catches and skips. -/
def c6ValueBad : RawVacancy :=
  [("id", PyVal.str "abc"), ("employer", PyVal.dict [("id", PyVal.int 2)])]

/-- Payload whose employer value is a plain integer: .get on it raises
AttributeError, which the batch loop does not catch. -/
def c6AttrBad : RawVacancy :=
  [("id", PyVal.int 9), ("employer", PyVal.int 5)]

/-- C6 counterexample: a batch holding a good item and an item whose employer
is a non-dict aborts with AttributeError, losing the good item, where the
claim predicts the good item's parse to be returned. -/
theorem C6_extract_cex :
    extract_vacancies [c6Good, c6AttrBad] = .error .attributeError := rfl

/-- Witness for C6 on a batch of a good item and a ValueError item: the
failing item is skipped and the good parse is kept. -/
theorem C6_extract_skips_witness :
    extract_vacancies [c6Good, c6ValueBad] =
      .ok ([c6Good, c6ValueBad].filterMap (fun d => (parse_from_api d).toOption)) :=
  C6_extract_skips [c6Good, c6ValueBad] (by
    intro d hd
    simp only [List.mem_cons, List.not_mem_nil, or_false] at hd
    rcases hd with h | h
    · subst h
      rw [show parse_from_api c6Good = .ok
            ⟨1, 2, PyVal.str "Dev", PyVal.none, PyVal.none, PyVal.none, PyVal.none,
             PyVal.none, PyVal.none, PyVal.str "", PyVal.none, PyVal.none⟩ from rfl]
      simp
    · subst h
      rw [show parse_from_api c6ValueBad = .error .valueError from rfl]
      simp)

/-- Value of v.get(key, default) when v is a dict (and a placeholder None
otherwise; only used under a dict hypothesis). -/
def pyGetAttr (v : PyVal) (key : String) (dflt : PyVal) : PyVal :=
  match v with
  | .dict fs => dictLookup fs key dflt
  | _ => PyVal.none

/-- attrGet never fails on a dict. -/
theorem attrGet_of_isDict (v : PyVal) (key : String) (dflt : PyVal)
    (h : v.isDict = true) : attrGet v key dflt = .ok (pyGetAttr v key dflt) := by
  cases v <;> simp_all [attrGet, pyGetAttr, PyVal.isDict]

/-- attrGet always fails on a non-dict. -/
theorem attrGet_of_not_isDict (v : PyVal) (key : String) (dflt : PyVal)
    (h : v.isDict = false) : attrGet v key dflt = .error .attributeError := by
  cases v <;> simp_all [attrGet, PyVal.isDict]

/-- Shape admitted by the salary block: the None guard or a dict. -/
def salaryShapeOk (s : PyVal) : Bool := s.isNone || s.isDict

/-- API-provided salary triple: fields of the salary dict, all-absent when the
salary is None or missing. -/
def expectedSalary (s : PyVal) : PyVal × PyVal × PyVal :=
  match s with
  | .dict fs => (dictLookup fs "from" PyVal.none, dictLookup fs "to" PyVal.none,
                 dictLookup fs "currency" PyVal.none)
  | _ => (PyVal.none, PyVal.none, PyVal.none)

/-- The salary block succeeds with the API triple on the admitted shapes. -/
theorem salaryFields_of_shapeOk (s : PyVal) (h : salaryShapeOk s = true) :
    salaryFields s = .ok (expectedSalary s) := by
  cases s <;> simp_all [salaryFields, expectedSalary, salaryShapeOk, PyVal.isNone,
    PyVal.isDict, attrGet, bind, Except.bind, pure, Except.pure]

/-- The salary block raises AttributeError on every other shape. -/
theorem salaryFields_of_not_shapeOk (s : PyVal) (h : salaryShapeOk s = false) :
    salaryFields s = .error .attributeError := by
  cases s <;> simp_all [salaryFields, salaryShapeOk, PyVal.isNone, PyVal.isDict,
    attrGet, bind, Except.bind]

/-- Raw value of the employer identifier:
vacancy_data.get("employer", {}).get("id") for a dict-shaped employer. -/
def companyIdRaw (d : RawVacancy) : PyVal :=
  pyGetAttr (dictLookup d "employer" (PyVal.dict [])) "id" PyVal.none

/-- Nested name lookup vacancy_data.get(key, {}).get("name") for a dict-shaped
value. -/
def nestedNameVal (d : RawVacancy) (key : String) : PyVal :=
  pyGetAttr (dictLookup d key (PyVal.dict [])) "name" PyVal.none

/-- Identifier values accepted by int(): integers, booleans and strings that
parse as integers; a missing identifier surfaces as None and is rejected. -/
def numericId (v : PyVal) : Bool :=
  match v with
  | .int _ => true
  | .bool _ => true
  | .str s => (strToInt s).isSome
  | _ => false

/-- numericId is exactly success of the int() conversion. -/
theorem numericId_eq (v : PyVal) : numericId v = (pyIntOf v).isOk := by
  cases v <;> simp [numericId, pyIntOf, Except.isOk, Except.toBool]
  case str s => cases strToInt s <;> simp

/-- Success condition of parse_from_api: every nested lookup target is
well-shaped and both identifiers are present and numeric. -/
def parseSucceeds (d : RawVacancy) : Bool :=
  (dictLookup d "employer" (PyVal.dict [])).isDict &&
  salaryShapeOk (dictLookup d "salary" PyVal.none) &&
  (dictLookup d "area" (PyVal.dict [])).isDict &&
  (dictLookup d "experience" (PyVal.dict [])).isDict &&
  (dictLookup d "employment" (PyVal.dict [])).isDict &&
  numericId (dictLookup d "id" PyVal.none) &&
  numericId (companyIdRaw d)

/-- C4 (amended): parse_from_api succeeds exactly when the employer value is
an object, the salary value is absent/None or an object, the area, experience
and employment values are objects when present, and both the identifier and
the employer identifier are present and numeric; on success vacancy_id and
company_id are the int() conversions of the API identifiers, name equals the
API-provided value (which may be None when the key is absent - it need not be
a string), the salary triple comes from the salary object or is all-absent,
the nested names come from their objects, description defaults to the empty
string and url and publish timestamp default to absence. -/
theorem C4_parse_amended :
    ∀ d : RawVacancy,
      ((parse_from_api d).isOk = true ↔ parseSucceeds d = true) ∧
      (∀ v : ParsedVacancy, parse_from_api d = .ok v →
        pyIntOf (dictLookup d "id" PyVal.none) = .ok v.vacancy_id ∧
        pyIntOf (companyIdRaw d) = .ok v.company_id ∧
        v.name = dictLookup d "name" PyVal.none ∧
        v.salary_from = (expectedSalary (dictLookup d "salary" PyVal.none)).1 ∧
        v.salary_to = (expectedSalary (dictLookup d "salary" PyVal.none)).2.1 ∧
        v.currency = (expectedSalary (dictLookup d "salary" PyVal.none)).2.2 ∧
        v.area = nestedNameVal d "area" ∧
        v.experience = nestedNameVal d "experience" ∧
        v.employment_type = nestedNameVal d "employment" ∧
        v.description = dictLookup d "description" (PyVal.str "") ∧
        v.url = dictLookup d "alternate_url" PyVal.none ∧
        v.published_at = dictLookup d "published_at" PyVal.none) := by
  intro d
  simp only [parse_from_api, parseSucceeds, companyIdRaw, nestedNameVal, bind, Except.bind]
  by_cases hE : (dictLookup d "employer" (PyVal.dict [])).isDict
  case neg =>
    rw [attrGet_of_not_isDict _ _ _ (by simpa using hE)]
    simp [hE, Except.isOk, Except.toBool]
  case pos =>
  rw [attrGet_of_isDict _ _ _ hE]
  by_cases hS : salaryShapeOk (dictLookup d "salary" PyVal.none)
  case neg =>
    rw [salaryFields_of_not_shapeOk _ (by simpa using hS)]
    simp [hE, hS, Except.isOk, Except.toBool]
  case pos =>
  rw [salaryFields_of_shapeOk _ hS]
  by_cases hA : (dictLookup d "area" (PyVal.dict [])).isDict
  case neg =>
    rw [attrGet_of_not_isDict _ _ _ (by simpa using hA)]
    simp [hE, hS, hA, Except.isOk, Except.toBool]
  case pos =>
  rw [attrGet_of_isDict _ _ _ hA]
  by_cases hX : (dictLookup d "experience" (PyVal.dict [])).isDict
  case neg =>
    rw [attrGet_of_not_isDict _ _ _ (by simpa using hX)]
    simp [hE, hS, hA, hX, Except.isOk, Except.toBool]
  case pos =>
  rw [attrGet_of_isDict _ _ _ hX]
  by_cases hM : (dictLookup d "employment" (PyVal.dict [])).isDict
  case neg =>
    rw [attrGet_of_not_isDict _ _ _ (by simpa using hM)]
    simp [hE, hS, hA, hX, hM, Except.isOk, Except.toBool]
  case pos =>
  rw [attrGet_of_isDict _ _ _ hM]
  cases hI : pyIntOf (dictLookup d "id" PyVal.none) with
  | error e =>
    simp [hE, hS, hA, hX, hM, numericId_eq, hI, Except.isOk, Except.toBool]
  | ok n1 =>
  cases hC : pyIntOf (pyGetAttr (dictLookup d "employer" (PyVal.dict [])) "id" PyVal.none) with
  | error e =>
    simp [hE, hS, hA, hX, hM, numericId_eq, hI, hC, Except.isOk, Except.toBool]
  | ok n2 =>
  constructor
  · simp [hE, hS, hA, hX, hM, numericId_eq, hI, hC, Except.isOk, Except.toBool, pure,
      Except.pure]
  · intro v hv
    simp only [hC, pure, Except.pure, Except.ok.injEq] at hv
    subst hv
    simp [hI, hC]

/-- Payload with numeric identifiers but no name key. -/
def c4NoName : RawVacancy :=
  [("id", PyVal.int 1), ("employer", PyVal.dict [("id", PyVal.int 2)])]

/-- Payload with numeric identifiers, a string name, and area = None. -/
def c4AreaNull : RawVacancy :=
  [("id", PyVal.int 1), ("employer", PyVal.dict [("id", PyVal.int 2)]),
   ("name", PyVal.str "x"), ("area", PyVal.none)]

/-- C4 counterexample: (1) a payload without a name parses successfully yet
its name is None, not a string, against the claim that name is present and
string-valued on every success; (2) a payload whose identifiers are present
and numeric still fails (with AttributeError) when its area value is None,
against the claim that parsing fails exactly when an identifier is missing or
non-numeric. -/
theorem C4_parse_cex :
    (parse_from_api c4NoName).toOption.map (fun v => v.name.isStr) = some false ∧
    parse_from_api c4AreaNull = .error .attributeError :=
  ⟨rfl, rfl⟩

/-- Fully-populated well-shaped payload: a string id, an employer object, a
salary object missing its upper bound, an area object, an empty experience
object, and no employment, url or publish timestamp keys. -/
def c4Full : RawVacancy :=
  [("id", PyVal.str "10"), ("employer", PyVal.dict [("id", PyVal.int 2)]),
   ("name", PyVal.str "Dev"),
   ("salary", PyVal.dict [("from", PyVal.int 100), ("currency", PyVal.str "RUR")]),
   ("area", PyVal.dict [("name", PyVal.str "Moscow")]),
   ("experience", PyVal.dict []),
   ("description", PyVal.str "desc")]

/-- Record produced for c4Full. -/
def c4FullParsed : ParsedVacancy :=
  ⟨10, 2, PyVal.str "Dev", PyVal.int 100, PyVal.none, PyVal.str "RUR",
   PyVal.str "Moscow", PyVal.none, PyVal.none, PyVal.str "desc", PyVal.none, PyVal.none⟩

/-- Witness for C4 at c4Full: the parse succeeds and every field carries its
API-provided value or its default. -/
theorem C4_parse_amended_witness :
    pyIntOf (dictLookup c4Full "id" PyVal.none) = .ok c4FullParsed.vacancy_id ∧
    pyIntOf (companyIdRaw c4Full) = .ok c4FullParsed.company_id ∧
    c4FullParsed.name = dictLookup c4Full "name" PyVal.none ∧
    c4FullParsed.salary_from = (expectedSalary (dictLookup c4Full "salary" PyVal.none)).1 ∧
    c4FullParsed.salary_to = (expectedSalary (dictLookup c4Full "salary" PyVal.none)).2.1 ∧
    c4FullParsed.currency = (expectedSalary (dictLookup c4Full "salary" PyVal.none)).2.2 ∧
    c4FullParsed.area = nestedNameVal c4Full "area" ∧
    c4FullParsed.experience = nestedNameVal c4Full "experience" ∧
    c4FullParsed.employment_type = nestedNameVal c4Full "employment" ∧
    c4FullParsed.description = dictLookup c4Full "description" (PyVal.str "") ∧
    c4FullParsed.url = dictLookup c4Full "alternate_url" PyVal.none ∧
    c4FullParsed.published_at = dictLookup c4Full "published_at" PyVal.none :=
  (C4_parse_amended c4Full).2 c4FullParsed rfl

/-- After an upsert keyed on a company id, exactly one row carries that id -
the upserted one - provided the table held at most one such row before. -/
theorem upsertCompany_filter (rows : List CompanyRow) (c : CompanyRow)
    (hlen : (rows.filter (fun r => r.company_id == c.company_id)).length ≤ 1) :
    (upsertCompany rows c).filter (fun r => r.company_id == c.company_id) = [c] := by
  unfold upsertCompany
  by_cases hany : rows.any (fun r => r.company_id == c.company_id)
  · rw [if_pos hany, List.filter_map
      (fun r => if r.company_id == c.company_id then c else r) rows]
    have hpt : List.filter
        ((fun r => r.company_id == c.company_id) ∘
          fun r => if r.company_id == c.company_id then c else r) rows =
        List.filter (fun r => r.company_id == c.company_id) rows := by
      apply List.filter_congr
      intro r _
      by_cases hr : r.company_id == c.company_id <;> simp [hr, Function.comp]
    rw [hpt]
    obtain ⟨r0, hr0⟩ : ∃ r0,
        List.filter (fun r => r.company_id == c.company_id) rows = [r0] := by
      rw [← List.length_eq_one]
      rcases List.any_eq_true.mp hany with ⟨x, hx, hpx⟩
      have hmemf : x ∈ List.filter (fun r => r.company_id == c.company_id) rows :=
        List.mem_filter.mpr ⟨hx, hpx⟩
      have hne : List.filter (fun r => r.company_id == c.company_id) rows ≠ [] := by
        intro hnil; rw [hnil] at hmemf; cases hmemf
      have hpos : 0 < (List.filter (fun r => r.company_id == c.company_id) rows).length :=
        List.length_pos.mpr hne
      omega
    have hr0p : (r0.company_id == c.company_id) = true := by
      have : r0 ∈ List.filter (fun r => r.company_id == c.company_id) rows := by
        rw [hr0]; simp
      exact (List.mem_filter.mp this).2
    rw [hr0]
    simp only [List.map_cons, List.map_nil]
    rw [if_pos hr0p]
  · rw [if_neg hany, List.filter_append]
    have hall : ∀ x ∈ rows, ¬ x.company_id = c.company_id := by simpa using hany
    have hnil : List.filter (fun r => r.company_id == c.company_id) rows = [] := by
      rw [List.filter_eq_nil_iff]
      intro r hr
      simp [hall r hr]
    rw [hnil]
    simp

/-- C3: upserting the same company_id twice leaves exactly one companies row
for it, carrying the second call's values (given the unique-index invariant
that at most one row held that id before); inserting the same vacancy_id
twice leaves exactly one vacancies row for it, carrying the first call's
values - the second call leaves the state entirely unchanged. -/
theorem C3_upsert_insert_once :
    (∀ (st : DBState) (c1 c2 : CompanyRow), c1.company_id = c2.company_id →
      (st.companies.filter (fun r => r.company_id == c2.company_id)).length ≤ 1 →
      ((insert_company (insert_company st .ok c1).1 .ok c2).1).companies.filter
          (fun r => r.company_id == c2.company_id) = [c2]) ∧
    (∀ (st : DBState) (v1 v2 : Vacancy), v1.vacancy_id = v2.vacancy_id →
      st.vacancies.any (fun r => r.vacancy_id == v1.vacancy_id) = false →
      st.companies.any (fun c => c.company_id == v1.company_id) = true →
      (insert_vacancy (insert_vacancy st .ok v1).1 .ok v2).1 = (insert_vacancy st .ok v1).1 ∧
      ((insert_vacancy (insert_vacancy st .ok v1).1 .ok v2).1).vacancies.filter
          (fun r => r.vacancy_id == v1.vacancy_id) = [v1]) := by
  constructor
  · intro st c1 c2 hid hlen
    simp only [insert_company]
    have h1 : (upsertCompany st.companies c1).filter
        (fun r => r.company_id == c1.company_id) = [c1] :=
      upsertCompany_filter st.companies c1 (by rw [hid]; exact hlen)
    rw [hid] at h1
    exact upsertCompany_filter (upsertCompany st.companies c1) c2 (by rw [h1]; simp)
  · intro st v1 v2 hid hfresh hfk
    have h1 : insert_vacancy st .ok v1 =
        ({ st with vacancies := st.vacancies ++ [v1] }, true) := by
      simp [insert_vacancy, hfresh, hfk]
    have hmem : (({ st with vacancies := st.vacancies ++ [v1] } : DBState)).vacancies.any
        (fun r => r.vacancy_id == v2.vacancy_id) = true := by
      rw [List.any_eq_true]
      exact ⟨v1, by simp, by simp [← hid]⟩
    have h2 : insert_vacancy ({ st with vacancies := st.vacancies ++ [v1] } : DBState) .ok v2 =
        ({ st with vacancies := st.vacancies ++ [v1] }, true) := by
      simp only [insert_vacancy]
      rw [if_pos hmem]
    have hfst : (insert_vacancy (insert_vacancy st .ok v1).1 .ok v2).1 =
        ({ st with vacancies := st.vacancies ++ [v1] } : DBState) := by
      rw [h1]
      simpa using congrArg Prod.fst h2
    have hnil : st.vacancies.filter (fun r => r.vacancy_id == v1.vacancy_id) = [] := by
      rw [List.filter_eq_nil_iff]
      intro r hr
      have hall : ∀ x ∈ st.vacancies, ¬ x.vacancy_id = v1.vacancy_id := by simpa using hfresh
      simp [hall r hr]
    constructor
    · rw [hfst, h1]
    · rw [hfst]
      show (st.vacancies ++ [v1]).filter (fun r => r.vacancy_id == v1.vacancy_id) = [v1]
      rw [List.filter_append, hnil]
      simp

/-- First upsert payload for the C3 witness. -/
def c3CompanyA : CompanyRow := ⟨7, "First name", Option.none, 1⟩

/-- Second upsert payload for the C3 witness: same company_id, different
name, site and count. -/
def c3CompanyB : CompanyRow := ⟨7, "Second name", some "site", 2⟩

/-- Base state for the vacancy half of the C3 witness: one company, no
vacancies. -/
def c3State : DBState := ⟨[⟨2, "Acme", Option.none, 0⟩], []⟩

/-- First insert payload for the C3 witness. -/
def c3VacancyA : Vacancy :=
  ⟨5, 2, "First title", some 10, Option.none, Option.none, Option.none, Option.none,
   Option.none, Option.none, Option.none, Option.none⟩

/-- Second insert payload for the C3 witness: same vacancy_id, every other
field different. -/
def c3VacancyB : Vacancy :=
  ⟨5, 2, "Second title", Option.none, some 20, some "RUR", Option.none, Option.none,
   Option.none, Option.none, Option.none, Option.none⟩

/-- Witness for C3 on an empty table and on a one-company table. -/
theorem C3_upsert_insert_once_witness :
    ((insert_company (insert_company ⟨[], []⟩ .ok c3CompanyA).1 .ok c3CompanyB).1).companies.filter
        (fun r => r.company_id == c3CompanyB.company_id) = [c3CompanyB] ∧
    (insert_vacancy (insert_vacancy c3State .ok c3VacancyA).1 .ok c3VacancyB).1 =
        (insert_vacancy c3State .ok c3VacancyA).1 ∧
    ((insert_vacancy (insert_vacancy c3State .ok c3VacancyA).1 .ok c3VacancyB).1).vacancies.filter
        (fun r => r.vacancy_id == c3VacancyA.vacancy_id) = [c3VacancyA] :=
  ⟨C3_upsert_insert_once.1 ⟨[], []⟩ c3CompanyA c3CompanyB rfl (by decide),
   C3_upsert_insert_once.2 c3State c3VacancyA c3VacancyB rfl (by decide) (by decide)⟩
